import Mathlib

/-!
Verification of the APIS-OVERSEER simulation core against its specification.

This file gives a shallow embedding of the parts of the engine that the
checked properties talk about:

* the per-agent biology update chain of `biology.py`
  (`apply_energy_decay`, `apply_health_decay`, `apply_food_restoration`,
  `apply_warmth_restoration`, `apply_health_regeneration`,
  `apply_stress_dynamics`, `update_state_flags`, `update_cohesion_illusion`)
  as invoked by `BeeSimulation._update_vanguard` / `_update_legion`
  (`simulation.py`);
* the steering-force combination weights of `_update_vanguard`;
* the LOD hysteresis step of `BeeSimulation._update_lod_system`;
* the pheromone resource-channel update of
  `src/pheromone_system.py` (`update`, `gaussian_blur_3x3_njit`,
  `deposit_resource`);
* the vectorized flower harvest of `src/resource_manager.py`
  (`ResourceManager.harvest`);
* the sharing structure of `BeeSimulation.get_render_data`.

Modelling conventions, stated once here and referenced below:

* The source operates on numpy float32 row arrays; every per-row update of a
  tick reads only that row (plus global aggregates that we pass in as
  parameters), so we model one agent row as a record and the vectorized
  operation as a function on that record, over exact real/rational
  arithmetic (the spec describes the intended real-number behaviour; all
  claim verdicts below are insensitive to float rounding).
* `np.clip(x, lo, hi)` is `min hi (max lo x)`.
* The source compares Euclidean distances against a radius
  (`np.sqrt(dx**2+dy**2) < r`); we compare squared distances against `r^2`,
  which is equivalent for nonnegative radii and keeps rational arithmetic
  exact.
* The state-flags column is written by `.view(np.int32)` bit operations;
  we model the column directly as the integer bit pattern (`ℕ`) with
  `&&&`/`|||`/`<<<`/`>>>`.
-/

namespace Apis

/-! ## Configuration constants (`config.py`) -/

/-- config.py: ENERGY_DECAY_RATE = 0.02 (per second). -/
def ENERGY_DECAY_RATE : ℝ := 0.02

/-- config.py: HEALTH_DECAY_RATE = 0.01 (per second when cold/hungry). -/
def HEALTH_DECAY_RATE : ℝ := 0.01

/-- config.py: WARMTH_THRESHOLD = 0.6. -/
def WARMTH_THRESHOLD : ℝ := 0.6

/-- config.py: HUNGER_THRESHOLD = 0.5. -/
def HUNGER_THRESHOLD : ℝ := 0.5

/-- config.py: FOOD_RESTORE_RATE = 0.3 (per second at food source). -/
def FOOD_RESTORE_RATE : ℝ := 0.3

/-- config.py: WARMTH_RESTORE_RATE = 0.4 (per second at hive). -/
def WARMTH_RESTORE_RATE : ℝ := 0.4

/-- config.py: REGEN_RATE_MAX = 0.0012; used by `apply_health_regeneration`
as the base regeneration rate. -/
def REGEN_RATE_MAX : ℝ := 0.0012

/-- config.py: STRESS_ACCUMULATION_RATE = 0.05 (stress gain per second). -/
def STRESS_ACCUMULATION_RATE : ℝ := 0.05

/-- config.py: HIVE_ENTRANCE_RADIUS = 30. -/
def HIVE_ENTRANCE_RADIUS : ℝ := 30

/-- config.py: MAX_SPEED = 80.0 (pixels/sec). -/
def MAX_SPEED : ℝ := 80.0

/-- config.py: FLAG_SEEKING_FOOD = 1 << 0. -/
def FLAG_SEEKING_FOOD : ℕ := 1

/-- config.py: FLAG_RETURNING = 1 << 1. -/
def FLAG_RETURNING : ℕ := 2

/-- config.py: FLAG_WARMING = 1 << 2. -/
def FLAG_WARMING : ℕ := 4

/-- config.py: FLAG_DEAD = 1 << 3. -/
def FLAG_DEAD : ℕ := 8

/-- config.py: FLAG_FORESHADOW_DEATH = 1 << 4. -/
def FLAG_FORESHADOW_DEATH : ℕ := 16

/-- config.py: CASTE_BITS_OFFSET = 5 (caste id in bits 5-6 of STATE_FLAGS). -/
def CASTE_BITS_OFFSET : ℕ := 5

/-- config.py: CASTE_SCOUT = 0. -/
def CASTE_SCOUT : ℕ := 0

/-- config.py: CASTE_FORAGER = 1. -/
def CASTE_FORAGER : ℕ := 1

/-- config.py: CASTE_NURSE = 2. -/
def CASTE_NURSE : ℕ := 2

/-- Caste extraction as used throughout `simulation.py`:
`(flags >> CASTE_BITS_OFFSET) & 0b11`. -/
def casteOf (flags : ℕ) : ℕ := (flags >>> CASTE_BITS_OFFSET) &&& 3

/-! ## Geometry helpers -/

/-- Squared Euclidean distance between two points; the source compares
`np.sqrt(dx**2 + dy**2) < r`, which for `0 ≤ r` is equivalent to
`distSq < r^2`. -/
def distSq (p q : ℝ × ℝ) : ℝ := (p.1 - q.1) ^ 2 + (p.2 - q.2) ^ 2

/-- np.clip(x, 0.0, 1.0). -/
noncomputable def clip01 (x : ℝ) : ℝ := min 1 (max 0 x)

/-! ## Agent state records -/

/-- One row of the Vanguard array (`simulation.py`, 20 float32 columns,
column indices `V_*` of config.py); the STATE_FLAGS column is modelled as
its integer bit pattern. -/
structure VanguardState where
  posX : ℝ
  posY : ℝ
  velX : ℝ
  velY : ℝ
  health : ℝ
  stress : ℝ
  regenMod : ℝ
  stressRes : ℝ
  targetX : ℝ
  targetY : ℝ
  lodLevel : ℝ
  lodTimer : ℝ
  energy : ℝ
  temp : ℝ
  flags : ℕ
  age : ℝ
  cohesion : ℝ
  trailPhase : ℝ
  regenRate : ℝ
  deathThreshold : ℝ

/-- One row of the Legion array (`simulation.py`, 15 float32 columns,
column indices `L_*` of config.py). -/
structure LegionState where
  posX : ℝ
  posY : ℝ
  velX : ℝ
  velY : ℝ
  health : ℝ
  stress : ℝ
  regenMod : ℝ
  stressRes : ℝ
  targetX : ℝ
  targetY : ℝ
  lodTimer : ℝ
  flags : ℕ
  lodLevel : ℝ
  regenRate : ℝ
  deathThreshold : ℝ

/-! ## Biology updates (`biology.py`), one Vanguard row at a time -/

/-- biology.py `apply_energy_decay`: subtract `ENERGY_DECAY_RATE * dt`,
clip to `[0,1]`, and OR `FLAG_FORESHADOW_DEATH` into the flags of rows whose
clipped energy is below 0.2. -/
noncomputable def apply_energy_decay (dt : ℝ) (s : VanguardState) : VanguardState :=
  let e := clip01 (s.energy - ENERGY_DECAY_RATE * dt)
  let f := if e < 0.2 then s.flags ||| FLAG_FORESHADOW_DEATH else s.flags
  { s with energy := e, flags := f }

/-- biology.py `apply_health_decay`: health decays while cold or hungry,
is clipped to `[0,1]`; rows below their individual death threshold get
`FLAG_FORESHADOW_DEATH`, rows at health `≤ 0` get `FLAG_DEAD`. -/
noncomputable def apply_health_decay (dt : ℝ) (s : VanguardState) : VanguardState :=
  let h0 := if s.temp < WARMTH_THRESHOLD ∨ s.energy < HUNGER_THRESHOLD
    then s.health - HEALTH_DECAY_RATE * dt else s.health
  let h := clip01 h0
  let f0 := if h < s.deathThreshold then s.flags ||| FLAG_FORESHADOW_DEATH else s.flags
  let f := if h ≤ 0 then f0 ||| FLAG_DEAD else f0
  { s with health := h, flags := f }

/-- biology.py `apply_food_restoration`: with no food sources the function
returns immediately (no clip); otherwise rows within 30px of any food source
gain `FOOD_RESTORE_RATE * dt` energy and every row's energy is clipped. -/
noncomputable def apply_food_restoration (foods : List (ℝ × ℝ)) (dt : ℝ)
    (s : VanguardState) : VanguardState :=
  if foods = [] then s
  else
    let near := ∃ f ∈ foods, distSq (s.posX, s.posY) f < 30 ^ 2
    let e0 := if near then s.energy + FOOD_RESTORE_RATE * dt else s.energy
    { s with energy := clip01 e0 }

/-- biology.py `apply_warmth_restoration`: rows within
`HIVE_ENTRANCE_RADIUS * 2` of the hive gain `WARMTH_RESTORE_RATE * dt`
temperature; every row's temperature is clipped. -/
noncomputable def apply_warmth_restoration (hive : ℝ × ℝ) (dt : ℝ)
    (s : VanguardState) : VanguardState :=
  let near := distSq (s.posX, s.posY) hive < (HIVE_ENTRANCE_RADIUS * 2) ^ 2
  let t0 := if near then s.temp + WARMTH_RESTORE_RATE * dt else s.temp
  { s with temp := clip01 t0 }

/-- biology.py `apply_health_regeneration` (Vanguard column selection):
alive rows (`FLAG_DEAD` clear) gain `REGEN_RATE_MAX * regen_mod * dt`
health; every row's health is clipped. -/
noncomputable def apply_health_regeneration (dt : ℝ) (s : VanguardState) : VanguardState :=
  let alive := s.flags &&& FLAG_DEAD = 0
  let h0 := if alive then s.health + REGEN_RATE_MAX * s.regenMod * dt else s.health
  { s with health := clip01 h0 }

/-- numpy `np.power(x, 1.5)` as a real power. -/
noncomputable def npPow15 (x : ℝ) : ℝ := x ^ (1.5 : ℝ)

/-- biology.py `apply_stress_dynamics` (Vanguard column selection): alive
rows accumulate `STRESS_ACCUMULATION_RATE * dt / stress_res` stress and then
lose `(0.1*x + 0.9*x^1.5) * dt`; every row's stress is clipped to `[0,1]`;
finally alive rows whose (clipped) stress exceeds 0.7 lose `0.002 * dt`
health, with no clip applied to health afterwards. -/
noncomputable def apply_stress_dynamics (dt : ℝ) (s : VanguardState) : VanguardState :=
  let alive := s.flags &&& FLAG_DEAD = 0
  let x0 := if alive then s.stress + STRESS_ACCUMULATION_RATE * dt / s.stressRes else s.stress
  let x1 := if alive then x0 - (0.1 * x0 + 0.9 * npPow15 x0) * dt else x0
  let x := clip01 x1
  let h := if x > 0.7 ∧ alive then s.health - 0.002 * dt else s.health
  { s with stress := x, health := h }

/-- biology.py `update_state_flags`, nearest-food selection: numpy
`argmin` over the squared-distance row, first index winning ties. -/
noncomputable def nearestFood (p : ℝ × ℝ) : List (ℝ × ℝ) → ℝ × ℝ
  | [] => p
  | f :: fs => fs.foldl (fun best g => if distSq p g < distSq p best then g else best) f

/-- biology.py `update_state_flags`: keep only
`FLAG_DEAD ||| FLAG_FORESHADOW_DEATH` of the old flags, then OR in
`FLAG_SEEKING_FOOD` (low energy) and `FLAG_WARMING ||| FLAG_RETURNING`
(low temperature); seeking rows retarget to the nearest food source,
warming rows retarget to the hive center. -/
noncomputable def update_state_flags (foods : List (ℝ × ℝ)) (hive : ℝ × ℝ)
    (s : VanguardState) : VanguardState :=
  let f0 := s.flags &&& (FLAG_DEAD ||| FLAG_FORESHADOW_DEATH)
  let f1 := if s.energy < HUNGER_THRESHOLD then f0 ||| FLAG_SEEKING_FOOD else f0
  let f := if s.temp < WARMTH_THRESHOLD then f1 ||| (FLAG_WARMING ||| FLAG_RETURNING) else f1
  let seeking := f &&& FLAG_SEEKING_FOOD > 0
  let t0 : ℝ × ℝ := if seeking ∧ foods ≠ [] then nearestFood (s.posX, s.posY) foods
    else (s.targetX, s.targetY)
  let warming := f &&& FLAG_WARMING > 0
  let t : ℝ × ℝ := if warming then hive else t0
  { s with flags := f, targetX := t.1, targetY := t.2 }

/-- biology.py `update_cohesion_illusion`: store the local density sample
(divided by 10, clipped) in the cohesion column; the density value sampled
from the field at the agent's cell is passed in as a parameter. -/
noncomputable def update_cohesion_illusion (localDensity : ℝ) (s : VanguardState) :
    VanguardState :=
  { s with cohesion := clip01 (localDensity / 10) }

/-- The biology portion of `BeeSimulation._update_vanguard`
(simulation.py lines 572-596), in source order; the preceding steering /
jitter / clamp / position phases write only the position and velocity
columns. Ends with the age and trail-phase increments. -/
noncomputable def vanguardBiology (dt : ℝ) (foods : List (ℝ × ℝ)) (hive : ℝ × ℝ)
    (localDensity : ℝ) (s : VanguardState) : VanguardState :=
  let s1 := apply_energy_decay dt s
  let s2 := apply_health_decay dt s1
  let s3 := apply_food_restoration foods dt s2
  let s4 := apply_warmth_restoration hive dt s3
  let s5 := apply_health_regeneration dt s4
  let s6 := apply_stress_dynamics dt s5
  let s7 := update_state_flags foods hive s6
  let s8 := update_cohesion_illusion localDensity s7
  { s8 with age := s8.age + dt, trailPhase := s8.trailPhase + dt * 2 }

/-! ## Legion tier update (`BeeSimulation._update_legion`) -/

/-- config.py caste speed multipliers: SCOUT 1.2, FORAGER 1.0, NURSE 0.5;
`np.choose(caste_ids, [...])` indexed by caste id. -/
noncomputable def casteSpeedMult (casteId : ℕ) : ℝ :=
  if casteId = 0 then 1.2 else if casteId = 1 then 1.0 else 0.5

/-- biology.py `apply_seek_simple`: normalized target direction at
`MAX_SPEED * 0.7`, minus velocity, scaled by 0.5; a zero-norm direction is
replaced by the neutral divisor 1. -/
noncomputable def apply_seek_simple (pos vel target : ℝ × ℝ) : ℝ × ℝ :=
  let dx := target.1 - pos.1
  let dy := target.2 - pos.2
  let n0 := Real.sqrt (dx ^ 2 + dy ^ 2)
  let n := if n0 > 0 then n0 else 1
  ((dx / n * MAX_SPEED * 0.7 - vel.1) * 0.5, (dy / n * MAX_SPEED * 0.7 - vel.2) * 0.5)

/-- Per-tick aggregate/random inputs of `_update_legion` that do not live in
the agent row: the Vanguard mean velocity (proxy alignment), the pheromone
gradient sampled at the agent's cell, and the organic-jitter noise drawn for
the agent (zero when its alignment is below the jitter threshold). All of
them feed only the velocity columns. -/
structure LegionTickInput where
  vanguardAvgVel : ℝ × ℝ
  gradient : ℝ × ℝ
  jitter : ℝ × ℝ

/-- Movement phase of `_update_legion` (simulation.py lines 606-677):
proxy-alignment force `(avg - vel) * 0.3`, simplified seek, pheromone
gradient at weight `PHEROMONE_GRADIENT_WEIGHT = 0.3`; Euler step with 0.98
damping, additive organic jitter, caste-specific magnitude clamp, position
step and world clamp. The nurse hive-radius pull-back of lines 670-673
assigns through chained fancy indexing into a temporary copy and therefore
never writes the array; it is omitted accordingly. -/
noncomputable def legionMove (dt : ℝ) (inp : LegionTickInput) (s : LegionState) :
    LegionState :=
  let proxy : ℝ × ℝ := (inp.vanguardAvgVel.1 - s.velX, inp.vanguardAvgVel.2 - s.velY)
  let seek := apply_seek_simple (s.posX, s.posY) (s.velX, s.velY) (s.targetX, s.targetY)
  let fx := proxy.1 * 0.3 + seek.1 + inp.gradient.1 * 0.3
  let fy := proxy.2 * 0.3 + seek.2 + inp.gradient.2 * 0.3
  let vx0 := (s.velX + fx * dt) * 0.98 + inp.jitter.1
  let vy0 := (s.velY + fy * dt) * 0.98 + inp.jitter.2
  let maxSpeed := MAX_SPEED * casteSpeedMult (casteOf s.flags)
  let speed := Real.sqrt (vx0 ^ 2 + vy0 ^ 2)
  let vx := if speed > maxSpeed then vx0 * (maxSpeed / speed) else vx0
  let vy := if speed > maxSpeed then vy0 * (maxSpeed / speed) else vy0
  let px := min 1000 (max 0 (s.posX + vx * dt))
  let py := min 1000 (max 0 (s.posY + vy * dt))
  { s with posX := px, posY := py, velX := vx, velY := vy }

/-- biology.py `apply_health_regeneration` with the Legion column selection
(`is_vanguard=False`), same body as the Vanguard version. -/
noncomputable def apply_health_regeneration_legion (dt : ℝ) (s : LegionState) :
    LegionState :=
  let alive := s.flags &&& FLAG_DEAD = 0
  let h0 := if alive then s.health + REGEN_RATE_MAX * s.regenMod * dt else s.health
  { s with health := clip01 h0 }

/-- biology.py `apply_stress_dynamics` with the Legion column selection,
same body as the Vanguard version. -/
noncomputable def apply_stress_dynamics_legion (dt : ℝ) (s : LegionState) : LegionState :=
  let alive := s.flags &&& FLAG_DEAD = 0
  let x0 := if alive then s.stress + STRESS_ACCUMULATION_RATE * dt / s.stressRes else s.stress
  let x1 := if alive then x0 - (0.1 * x0 + 0.9 * npPow15 x0) * dt else x0
  let x := clip01 x1
  let h := if x > 0.7 ∧ alive then s.health - 0.002 * dt else s.health
  { s with stress := x, health := h }

/-- One whole `BeeSimulation._update_legion` pass for one row: movement,
the simplified unclipped health decay of line 683
(`health -= HEALTH_DECAY_RATE * dt * 0.5`), regeneration, stress dynamics.
No statement of the function writes the STATE_FLAGS column. -/
noncomputable def updateLegion (dt : ℝ) (inp : LegionTickInput) (s : LegionState) :
    LegionState :=
  let s1 := legionMove dt inp s
  let s2 := { s1 with health := s1.health - HEALTH_DECAY_RATE * dt * 0.5 }
  let s3 := apply_health_regeneration_legion dt s2
  apply_stress_dynamics_legion dt s3

/-- Iterated Legion ticks, the per-tick aggregate inputs given as a
stream. -/
noncomputable def legionRun (dt : ℝ) (inps : ℕ → LegionTickInput) (s : LegionState) :
    ℕ → LegionState
  | 0 => s
  | n + 1 => updateLegion dt (inps n) (legionRun dt inps s n)

/-- Initial flags of `BeeSimulation._init_legion` (and `_init_vanguard`):
`FLAG_SEEKING_FOOD` with the caste id ORed into bits 5-6. -/
def initFlags (casteId : ℕ) : ℕ := FLAG_SEEKING_FOOD ||| (casteId <<< CASTE_BITS_OFFSET)

/-! ## Steering force combination (`_update_vanguard`, simulation.py 498-508) -/

/-- config.py: COHESION_FORCE = 0.6. -/
def COHESION_FORCE : ℚ := 0.6

/-- config.py: SEPARATION_FORCE = 0.4. -/
def SEPARATION_FORCE : ℚ := 0.4

/-- config.py: ALIGNMENT_FORCE = 0.3. -/
def ALIGNMENT_FORCE : ℚ := 0.3

/-- config.py: SEEK_FORCE = 0.5. -/
def SEEK_FORCE : ℚ := 0.5

/-- config.py: COHESION_DOMINANCE_RATIO = 2.0, documented as
"Cohesion weight must be 2x density weight". -/
def COHESION_DOMINANCE_RATIO : ℚ := 2

/-- config.py: NURSE_COHESION_MULT = 2.0; `np.choose` over
`[1.0, 1.0, NURSE_COHESION_MULT]` gives non-nurse castes 1. -/
def cohesionMult (casteId : ℕ) : ℚ := if casteId = CASTE_NURSE then 2 else 1

/-- simulation.py lines 502-508: the combined steering force
`cohesion*COHESION_FORCE*COHESION_DOMINANCE_RATIO*cohesion_mult +
separation*SEPARATION_FORCE + alignment*ALIGNMENT_FORCE + seek*SEEK_FORCE`
(componentwise on 2D force vectors). -/
def totalSteeringForce (casteId : ℕ) (cohesion separation alignment seek : ℚ × ℚ) :
    ℚ × ℚ :=
  (cohesion.1 * (COHESION_FORCE * COHESION_DOMINANCE_RATIO * cohesionMult casteId)
      + separation.1 * SEPARATION_FORCE + alignment.1 * ALIGNMENT_FORCE
      + seek.1 * SEEK_FORCE,
   cohesion.2 * (COHESION_FORCE * COHESION_DOMINANCE_RATIO * cohesionMult casteId)
      + separation.2 * SEPARATION_FORCE + alignment.2 * ALIGNMENT_FORCE
      + seek.2 * SEEK_FORCE)

/-- The effective scalar weight multiplying the cohesion force vector in
`totalSteeringForce`. -/
def effectiveCohesionWeight (casteId : ℕ) : ℚ :=
  COHESION_FORCE * COHESION_DOMINANCE_RATIO * cohesionMult casteId

/-- The effective scalar weight multiplying the separation (density) force
vector in `totalSteeringForce`. -/
def effectiveSeparationWeight : ℚ := SEPARATION_FORCE

/-! ## LOD hysteresis (`BeeSimulation._update_lod_system`) -/

/-- config.py: LOD_PROMOTE_TIME = 0.5 (seconds). -/
def LOD_PROMOTE_TIME : ℚ := 0.5

/-- config.py: LOD_DEMOTE_TIME = 2.0 (seconds). -/
def LOD_DEMOTE_TIME : ℚ := 2

/-- The per-agent LOD state: the V_LOD_LEVEL and V_LOD_TIMER columns. -/
structure LodState where
  lodLevel : ℕ
  timer : ℚ
deriving DecidableEq

/-- One `_update_lod_system` pass for one agent (simulation.py 837-865).
`far` is `distance > LOD_DISTANCE_VANGUARD` for this tick's camera
position. Far rows add `dt` to the timer and are promoted (level 1, timer
reset) once the incremented timer reaches `LOD_PROMOTE_TIME`; near rows
subtract `dt`; every row's timer is then clipped to `[0, LOD_DEMOTE_TIME]`.
No branch ever writes level 0. -/
def lodTick (dt : ℚ) (far : Bool) (s : LodState) : LodState :=
  let s1 :=
    if far then
      let t := s.timer + dt
      if t ≥ LOD_PROMOTE_TIME then { lodLevel := 1, timer := 0 }
      else { s with timer := t }
    else { s with timer := s.timer - dt }
  { s1 with timer := max 0 (min LOD_DEMOTE_TIME s1.timer) }

/-- Iterated LOD ticks from the initial state (level 0, timer 0 as in
`_init_vanguard`), with the camera trajectory given as the per-tick
far/near bit; the fixed tick is `sim_dt = 1/30`. -/
def lodRun (far : ℕ → Bool) : ℕ → LodState
  | 0 => ⟨0, 0⟩
  | n + 1 => lodTick (1 / 30) (far n) (lodRun far n)

/-! ## Flower harvest (`src/resource_manager.py`) -/

/-- config.py: FLOWER_HARVEST_BASE = 0.1. -/
def FLOWER_HARVEST_BASE : ℚ := 0.1

/-- config.py: FLOWER_CONTACT_RADIUS = 20.0. -/
def FLOWER_CONTACT_RADIUS : ℚ := 20

/-- One flower of `ResourceManager`: position, current nectar, active
status. -/
structure Flower where
  pos : ℚ × ℚ
  nectar : ℚ
  active : Bool
deriving DecidableEq

/-- Squared distance over `ℚ` (the source compares the Euclidean distance
against `FLOWER_CONTACT_RADIUS`; we compare squares, which is equivalent). -/
def distSqQ (p q : ℚ × ℚ) : ℚ := (p.1 - q.1) ^ 2 + (p.2 - q.2) ^ 2

/-- Contact validity of `ResourceManager.harvest` for one bee/flower pair:
within contact radius of a flower that is active and has nectar
(`in_contact & active_mask & nectar_mask`). -/
def validContact (b : ℚ × ℚ) (fl : Flower) : Bool :=
  fl.active && decide (0 < fl.nectar)
    && decide (distSqQ b fl.pos < FLOWER_CONTACT_RADIUS ^ 2)

/-- Closest-flower selection of `ResourceManager.harvest` for one bee:
`np.argmin` over the row of distances masked to valid contacts (invalid
entries at infinity), the first minimum winning; `none` when the bee has no
valid contact. -/
def closestFlower (fls : List Flower) (b : ℚ × ℚ) : Option ℕ :=
  (fls.enum.filter fun p => validContact b p.2).foldl
    (fun best p =>
      match best with
      | none => some p
      | some q => if distSqQ b p.2.pos < distSqQ b q.2.pos then some p else some q)
    none |>.map (·.1)

/-- The harvest credited to one bee: `clip(base_amount + noise, 0, None)`
further clamped to the contacted flower's nectar at the start of the call;
0 for a bee with no valid contact. The random draw
`np.random.normal(0, noise_std)` (whose std is scaled by the depletion
attenuation factor) enters as the explicit `noise` value. -/
def harvestAmount (fls : List Flower) (noise : ℚ) (b : ℚ × ℚ) : ℚ :=
  match closestFlower fls b with
  | none => 0
  | some j =>
    match fls[j]? with
    | some fl => min (max (FLOWER_HARVEST_BASE + noise) 0) fl.nectar
    | none => 0

/-- The per-bee harvested vector of one `ResourceManager.harvest` call;
`noise i` is the draw for bee `i`. -/
def harvestedVector (fls : List Flower) (bees : List (ℚ × ℚ)) (noise : ℕ → ℚ) : List ℚ :=
  bees.enum.map fun p => harvestAmount fls (noise p.1) p.2

/-- The deductions `np.add.at(self.nectar, harvest_flowers, -actual_harvests)`
accumulates into flower `j`: the harvest amounts of all bees whose closest
valid contact is flower `j`. -/
def flowerDeductions (fls : List Flower) (bees : List (ℚ × ℚ)) (noise : ℕ → ℚ)
    (j : ℕ) : List ℚ :=
  (bees.enum.filter fun p => closestFlower fls p.2 == some j).map
    fun p => harvestAmount fls (noise p.1) p.2

/-- Flower `j`'s nectar at the end of one `harvest` call: its starting
nectar minus the accumulated deductions. -/
def nectarAfterHarvest (fls : List Flower) (bees : List (ℚ × ℚ)) (noise : ℕ → ℚ)
    (j : ℕ) : ℚ :=
  (match fls[j]? with | some fl => fl.nectar | none => 0)
    - (flowerDeductions fls bees noise j).sum

/-! ## Pheromone resource channel (`src/pheromone_system.py`) -/

/-- config.py: PHEROMONE_GRID_SIZE = 128. -/
def PHEROMONE_GRID_SIZE : ℤ := 128

/-- A pheromone grid. The source array is 128 x 128; we index by `ℤ` and
note that every in-range cell of the blur reads only in-range cells (the
reflected index of a neighbour of an in-range cell is in range), so cells
outside `[0,127] x [0,127]` are inert ghosts that never feed back into the
modelled region. -/
def PherGrid : Type := ℤ → ℤ → ℚ

/-- The reflecting boundary index map of `gaussian_blur_3x3_njit`:
negative indices reflect to `-n`, indices past the end to `2*H - n - 2`,
then a clamp to `[0, H-1]` for safety. -/
def reflectIdx (n : ℤ) : ℤ :=
  let r := if n < 0 then -n else if PHEROMONE_GRID_SIZE ≤ n
    then 2 * PHEROMONE_GRID_SIZE - n - 2 else n
  max 0 (min (PHEROMONE_GRID_SIZE - 1) r)

/-- The blur `gaussian_blur_3x3_njit`: 3x3 Gaussian kernel 1-2-1 / 2-4-2 / 1-2-1
over 16, with reflecting boundary indices. -/
def gaussian_blur_3x3 (g : PherGrid) : PherGrid := fun y x =>
  (g (reflectIdx (y - 1)) (reflectIdx (x - 1))
      + 2 * g (reflectIdx (y - 1)) (reflectIdx x)
      + g (reflectIdx (y - 1)) (reflectIdx (x + 1))
      + 2 * g (reflectIdx y) (reflectIdx (x - 1))
      + 4 * g (reflectIdx y) (reflectIdx x)
      + 2 * g (reflectIdx y) (reflectIdx (x + 1))
      + g (reflectIdx (y + 1)) (reflectIdx (x - 1))
      + 2 * g (reflectIdx (y + 1)) (reflectIdx x)
      + g (reflectIdx (y + 1)) (reflectIdx (x + 1))) / 16

/-- One resource-channel step of `PheromoneSystem.update` (taken on the
channel's turn of the alternating frame counter): `resource_grid *= decay`
then the Gaussian blur. The subsequent Sobel pass recomputes the cached
gradient and does not write the concentration grid. The decay factor is a
parameter: `config.RESOURCE_DECAY_FACTOR` is referenced by the source but
absent from config.py, so every result below is proved for an arbitrary
decay factor in `(0, 1]`. -/
def resourceUpdate (decay : ℚ) (g : PherGrid) : PherGrid :=
  gaussian_blur_3x3 fun y x => decay * g y x

/-- The deposit `PheromoneSystem.deposit_resource` restricted to a single pulse:
`np.add.at` accumulates `amplitude` into the cell. -/
def depositAt (cy cx : ℤ) (amplitude : ℚ) (g : PherGrid) : PherGrid := fun y x =>
  if y = cy ∧ x = cx then g y x + amplitude else g y x

/-- The all-zero grid `PheromoneSystem.__init__` starts from. -/
def zeroGrid : PherGrid := fun _ _ => 0

/-- The scenario of the spec: a single pulse of the given amplitude at cell
(10,10) on the fresh grid, followed by `n` resource-channel updates with no
further deposits. -/
def pulseRun (decay amplitude : ℚ) (n : ℕ) : PherGrid :=
  (resourceUpdate decay)^[n] (depositAt 10 10 amplitude zeroGrid)

/-- The 1D kernel weight function: `w n` is the n-fold 1-2-1/4 convolution
of the discrete delta, so that the n-fold 2D blur of the delta is the outer
product `w n a * w n b` while no reflection is involved. -/
def w1d : ℕ → ℤ → ℚ
  | 0, a => if a = 0 then 1 else 0
  | n + 1, a => (w1d n (a - 1) + 2 * w1d n a + w1d n (a + 1)) / 4

/-! ## Render snapshot sharing (`BeeSimulation.get_render_data`) -/

/-- The components of the dict `get_render_data` returns. -/
inductive RenderComponent
  | vanguard
  | legion
  | nebula
  | densityField
  | flowers
  | pheromoneHeatmap
  | coherenceIndex
deriving DecidableEq

/-- The engine-owned mutable arrays a snapshot component could alias
(concretely: the numpy arrays `self.vanguard`, `self.legion`,
`self.density_field`; array contents abstracted to rational lists). -/
structure SimArrays where
  vanguard : List ℚ
  legion : List ℚ
  densityField : List ℚ
deriving DecidableEq

/-- Whether `get_render_data` (simulation.py 969-984, with
`ResourceManager.get_render_data` and `PheromoneSystem.get_heatmap`)
returns the component as a fresh/copied object (`true`) or as a direct
reference to engine-owned state (`false`): `vanguard`, `legion` and
`density_field` are the attributes themselves; `nebula` is freshly built by
`spawn_nebula_particles`; `flowers` is built from `.copy()` calls and a
fresh quotient array; `pheromone_heatmap` is `self.grid.copy()`;
`coherence_index` is an immutable scalar. -/
def componentIsCopy : RenderComponent → Bool
  | .vanguard => false
  | .legion => false
  | .nebula => true
  | .densityField => false
  | .flowers => true
  | .pheromoneHeatmap => true
  | .coherenceIndex => true

/-- The effect on the simulation's own arrays of writing `v` into a
snapshot component after `get_render_data`: components handed out by
reference write through into the engine state, copied components do not. -/
def writeThroughSnapshot (sim : SimArrays) (c : RenderComponent) (v : List ℚ) :
    SimArrays :=
  match c with
  | .vanguard => { sim with vanguard := v }
  | .legion => { sim with legion := v }
  | .densityField => { sim with densityField := v }
  | _ => sim

/-! ## Helper lemmas -/

theorem clip01_nonneg (x : ℝ) : 0 ≤ clip01 x := by
  unfold clip01
  have h : (0:ℝ) ≤ max 0 x := le_max_left 0 x
  exact le_min (by norm_num) h

theorem clip01_le_one (x : ℝ) : clip01 x ≤ 1 := min_le_left 1 (max 0 x)

theorem clip01_of_mem {x : ℝ} (h0 : 0 ≤ x) (h1 : x ≤ 1) : clip01 x = x := by
  unfold clip01
  rw [max_eq_right h0, min_eq_right h1]

theorem or_keeps_dead {x : ℕ} (c : ℕ) (h : x &&& FLAG_DEAD = FLAG_DEAD) :
    (x ||| c) &&& FLAG_DEAD = FLAG_DEAD := by
  have h8 : FLAG_DEAD = 2 ^ 3 := rfl
  rw [Nat.and_distrib_right, h, h8, Nat.and_two_pow]
  cases c.testBit 3 <;> simp

theorem mask_keeps_dead {x : ℕ} (h : x &&& FLAG_DEAD = FLAG_DEAD) :
    (x &&& (FLAG_DEAD ||| FLAG_FORESHADOW_DEATH)) &&& FLAG_DEAD = FLAG_DEAD := by
  rw [Nat.and_assoc]
  have h24 : (FLAG_DEAD ||| FLAG_FORESHADOW_DEATH) &&& FLAG_DEAD = FLAG_DEAD := by decide
  rw [h24, h]

/-! ## C5 - steering weight ratio -/

/-- C5: the claim says the effective cohesion weight is exactly twice the
effective separation weight for non-Nurse agents. In the code the cohesion
force is multiplied by `COHESION_FORCE * COHESION_DOMINANCE_RATIO
= 0.6 * 2.0 = 1.2` while the separation force is multiplied by
`SEPARATION_FORCE = 0.4`, so the ratio is 3, not 2 - the code contradicts
config.py's own invariant comment "Cohesion weight must be 2x density
weight". This theorem records both facts and grounds the weights in the
combined-force expression of `_update_vanguard`. -/
theorem cohesion_weight_ratio_is_three :
    effectiveCohesionWeight CASTE_SCOUT = 3 * effectiveSeparationWeight
    ∧ effectiveCohesionWeight CASTE_FORAGER = 3 * effectiveSeparationWeight
    ∧ effectiveCohesionWeight CASTE_SCOUT ≠ 2 * effectiveSeparationWeight
    ∧ effectiveCohesionWeight CASTE_FORAGER ≠ 2 * effectiveSeparationWeight
    ∧ (∀ v : ℚ, (totalSteeringForce CASTE_FORAGER (v, 0) (0, 0) (0, 0) (0, 0)).1
        = effectiveCohesionWeight CASTE_FORAGER * v)
    ∧ (∀ v : ℚ, (totalSteeringForce CASTE_FORAGER (0, 0) (v, 0) (0, 0) (0, 0)).1
        = effectiveSeparationWeight * v) := by
  have hW : ∀ c : ℕ, c ≠ CASTE_NURSE →
      effectiveCohesionWeight c = 6 / 5 := by
    intro c hc
    simp [effectiveCohesionWeight, COHESION_FORCE, COHESION_DOMINANCE_RATIO, cohesionMult, hc]
    norm_num
  have hS : effectiveSeparationWeight = 2 / 5 := by
    norm_num [effectiveSeparationWeight, SEPARATION_FORCE]
  refine ⟨?_, ?_, ?_, ?_, fun v => ?_, fun v => ?_⟩
  · rw [hW CASTE_SCOUT (by decide), hS]; norm_num
  · rw [hW CASTE_FORAGER (by decide), hS]; norm_num
  · rw [hW CASTE_SCOUT (by decide), hS]; norm_num
  · rw [hW CASTE_FORAGER (by decide), hS]; norm_num
  · simp only [totalSteeringForce, effectiveCohesionWeight]
    ring
  · simp only [totalSteeringForce, effectiveSeparationWeight]
    ring

/-! ## C9 - render snapshot sharing -/

/-- C9 counterexample: the `vanguard` component of `get_render_data` is the
live `self.vanguard` array, so writing through the snapshot changes the
simulation's own state - the snapshot is not read-only. -/
theorem render_vanguard_component_is_live :
    componentIsCopy RenderComponent.vanguard = false
    ∧ writeThroughSnapshot ⟨[0], [0], [0]⟩ RenderComponent.vanguard [1]
        ≠ (⟨[0], [0], [0]⟩ : SimArrays) := by
  constructor
  · rfl
  · intro h
    have := congrArg SimArrays.vanguard h
    rw [show (writeThroughSnapshot ⟨[0], [0], [0]⟩ RenderComponent.vanguard [1]).vanguard
        = [1] from rfl] at this
    simp at this

/-- C9 amended: the flower data, pheromone heatmap, nebula particles and
coherence index are copies or fresh objects (mutating them cannot change
engine state), but the `vanguard`, `legion` and `density_field` components
are live references to engine-owned arrays. -/
theorem render_data_sharing :
    (∀ (sim : SimArrays) (v : List ℚ) (c : RenderComponent), componentIsCopy c = true →
        writeThroughSnapshot sim c v = sim)
    ∧ componentIsCopy RenderComponent.flowers = true
    ∧ componentIsCopy RenderComponent.pheromoneHeatmap = true
    ∧ componentIsCopy RenderComponent.nebula = true
    ∧ componentIsCopy RenderComponent.coherenceIndex = true
    ∧ componentIsCopy RenderComponent.vanguard = false
    ∧ componentIsCopy RenderComponent.legion = false
    ∧ componentIsCopy RenderComponent.densityField = false := by
  refine ⟨fun sim v c h => ?_, rfl, rfl, rfl, rfl, rfl, rfl, rfl⟩
  cases c <;> first
    | rfl
    | simp [componentIsCopy] at h

/-! ## C10 - Legion agents are never marked dead -/

/-- C10: the Legion update path (`_update_legion`) never writes the
STATE_FLAGS column - `apply_health_decay`, the only function that sets
`FLAG_DEAD`, is invoked on the Vanguard array alone - and the spawn flags
carry no dead bit, so every Legion agent stays flagged alive forever, no
matter how low its health falls. -/
theorem legion_never_marked_dead :
    (∀ (dt : ℝ) (inp : LegionTickInput) (s : LegionState),
        (updateLegion dt inp s).flags = s.flags)
    ∧ (∀ c : Fin 3, initFlags c &&& FLAG_DEAD = 0)
    ∧ (∀ (dt : ℝ) (inps : ℕ → LegionTickInput) (s : LegionState) (n : ℕ),
        s.flags &&& FLAG_DEAD = 0 → (legionRun dt inps s n).flags &&& FLAG_DEAD = 0) := by
  have hstep : ∀ (dt : ℝ) (inp : LegionTickInput) (s : LegionState),
      (updateLegion dt inp s).flags = s.flags := by
    intro dt inp s
    simp only [updateLegion, legionMove, apply_health_regeneration_legion,
      apply_stress_dynamics_legion]
  refine ⟨hstep, by decide, fun dt inps s n h => ?_⟩
  induction n with
  | zero => exact h
  | succ k ih => rw [legionRun, hstep]; exact ih

/-! ## C3 - caste tag immutability -/

/-- C3: config.py stores the caste id in bits 5-6 of STATE_FLAGS and
`_init_vanguard` / `_init_legion` assign it at spawn, but
`update_state_flags` rebuilds the flag column each tick from
`flags & (FLAG_DEAD | FLAG_FORESHADOW_DEATH)` plus behaviour bits 0-2,
which erases the caste bits: after any tick every agent's extracted caste
id is `CASTE_SCOUT`, so a Nurse- or Forager-spawned agent does not keep its
caste. -/
theorem caste_bits_cleared_each_tick :
    casteOf (initFlags CASTE_NURSE) = CASTE_NURSE
    ∧ casteOf (initFlags CASTE_FORAGER) = CASTE_FORAGER
    ∧ (∀ (foods : List (ℝ × ℝ)) (hive : ℝ × ℝ) (s : VanguardState),
        casteOf ((update_state_flags foods hive s).flags) = CASTE_SCOUT) := by
  refine ⟨by decide, by decide, fun foods hive s => ?_⟩
  have hflags : (update_state_flags foods hive s).flags =
      (let f0 := s.flags &&& (FLAG_DEAD ||| FLAG_FORESHADOW_DEATH)
       let f1 := if s.energy < HUNGER_THRESHOLD then f0 ||| FLAG_SEEKING_FOOD else f0
       if s.temp < WARMTH_THRESHOLD then f1 ||| (FLAG_WARMING ||| FLAG_RETURNING) else f1) := by
    simp only [update_state_flags]
  rw [hflags]
  have h0 : s.flags &&& (FLAG_DEAD ||| FLAG_FORESHADOW_DEATH) < 2 ^ 5 := by
    have : s.flags &&& (FLAG_DEAD ||| FLAG_FORESHADOW_DEATH) ≤ 24 := Nat.and_le_right
    omega
  have hsmall : (let f0 := s.flags &&& (FLAG_DEAD ||| FLAG_FORESHADOW_DEATH)
      let f1 := if s.energy < HUNGER_THRESHOLD then f0 ||| FLAG_SEEKING_FOOD else f0
      if s.temp < WARMTH_THRESHOLD then f1 ||| (FLAG_WARMING ||| FLAG_RETURNING) else f1)
      < 2 ^ 5 := by
    have h1 : (FLAG_SEEKING_FOOD : ℕ) < 2 ^ 5 := by decide
    have h2 : (FLAG_WARMING ||| FLAG_RETURNING : ℕ) < 2 ^ 5 := by decide
    dsimp only
    split_ifs <;> first
      | exact h0
      | exact Nat.or_lt_two_pow h0 h1
      | exact Nat.or_lt_two_pow h0 h2
      | exact Nat.or_lt_two_pow (Nat.or_lt_two_pow h0 h1) h2
  generalize hF : (let f0 := s.flags &&& (FLAG_DEAD ||| FLAG_FORESHADOW_DEATH)
      let f1 := if s.energy < HUNGER_THRESHOLD then f0 ||| FLAG_SEEKING_FOOD else f0
      if s.temp < WARMTH_THRESHOLD then f1 ||| (FLAG_WARMING ||| FLAG_RETURNING) else f1) = F
      at hsmall ⊢
  unfold casteOf CASTE_BITS_OFFSET CASTE_SCOUT
  rw [Nat.shiftRight_eq_div_pow, Nat.div_eq_of_lt hsmall]
  rfl

/-! ## C6 - LOD hysteresis -/

/-- The camera trajectory of the C6 counterexample: near on every tick
`n` with `n % 10 = 9`, far otherwise; one full oscillation period is 10
ticks = 1/3 s < 0.5 s, and no far stint lasts 0.5 s. -/
def osc10Far (n : ℕ) : Bool := n % 10 != 9

/-- The strictly alternating trajectory: far on even ticks, near on odd
ticks (period 2 ticks = 1/15 s). -/
def altFar (n : ℕ) : Bool := n % 2 = 0

/-- C6 counterexample: under `osc10Far` the camera crosses the distance
boundary every 10 ticks (period 1/3 s < 0.5 s, far stints of at most 9
ticks = 0.3 s), yet the agent is promoted by tick 17: the promote timer is
a leaky accumulator (+dt when far, -dt when near), not a
continuous-stint requirement, so asymmetric oscillation faster than 0.5 s
still promotes. -/
theorem lod_flicker_promotion :
    (∀ n : ℕ, osc10Far (10 * n + 9) = false)
    ∧ (lodRun osc10Far 17).lodLevel = 1 := by
  constructor
  · intro n
    simp [osc10Far, Nat.add_mul_mod_self_left, Nat.mul_add_mod]
  · norm_num [lodRun, lodTick, osc10Far, LOD_PROMOTE_TIME, LOD_DEMOTE_TIME]

/-- C6 amended: promotion fires at the first far tick where the hysteresis
timer - incremented by dt per far tick, decremented by dt per near tick,
clamped to [0, 2] - reaches 0.5 s of net far time, which a sufficiently
asymmetric sub-0.5 s oscillation can reach; a strictly alternating far/near
camera (period 2 ticks) never promotes; and demotion back to full detail
never occurs (no branch of `_update_lod_system` writes tier 0). -/
theorem lod_hysteresis_behaviour :
    (∀ n : ℕ, lodRun altFar n = ⟨0, if n % 2 = 1 then (1 : ℚ) / 30 else 0⟩)
    ∧ (∀ (dt : ℚ) (far : Bool) (s : LodState),
        (lodTick dt far s).lodLevel ≠ s.lodLevel →
          far = true ∧ LOD_PROMOTE_TIME ≤ s.timer + dt)
    ∧ (∀ (dt : ℚ) (far : Bool) (s : LodState),
        s.lodLevel ≠ 0 → (lodTick dt far s).lodLevel ≠ 0) := by
  refine ⟨fun n => ?_, fun dt far s h => ?_, fun dt far s h => ?_⟩
  · induction n with
    | zero => rfl
    | succ k ih =>
      rw [lodRun, ih]
      rcases Nat.mod_two_eq_zero_or_one k with hk | hk
      · have hfar : altFar k = true := by simp [altFar, hk]
        have hk1 : (k + 1) % 2 = 1 := by omega
        rw [hfar, hk, hk1]
        simp only [lodTick, LOD_PROMOTE_TIME, LOD_DEMOTE_TIME]
        norm_num
      · have hfar : altFar k = false := by simp [altFar, hk]
        have hk1 : (k + 1) % 2 = 0 := by omega
        rw [hfar, hk, hk1]
        simp only [lodTick, LOD_PROMOTE_TIME, LOD_DEMOTE_TIME]
        norm_num
  · unfold lodTick at h
    dsimp only at h
    split_ifs at h with h1 h2
    · exact ⟨h1 , h2⟩
    · simp at h
    · simp at h
  · unfold lodTick
    dsimp only
    split_ifs
    · simp
    · simpa using h
    · simpa using h

/-! ## Per-step projection lemmas for the Vanguard biology chain -/

theorem energy_decay_flags_dead {dt : ℝ} {s : VanguardState}
    (h : s.flags &&& FLAG_DEAD = FLAG_DEAD) :
    (apply_energy_decay dt s).flags &&& FLAG_DEAD = FLAG_DEAD := by
  simp only [apply_energy_decay]
  split_ifs
  · exact or_keeps_dead _ h
  · exact h

theorem health_decay_flags_dead {dt : ℝ} {s : VanguardState}
    (h : s.flags &&& FLAG_DEAD = FLAG_DEAD) :
    (apply_health_decay dt s).flags &&& FLAG_DEAD = FLAG_DEAD := by
  simp only [apply_health_decay]
  split_ifs
  all_goals first
    | exact h
    | exact or_keeps_dead _ h
    | exact or_keeps_dead _ (or_keeps_dead _ h)

theorem food_restoration_flags (foods : List (ℝ × ℝ)) (dt : ℝ) (s : VanguardState) :
    (apply_food_restoration foods dt s).flags = s.flags := by
  simp only [apply_food_restoration]
  split_ifs <;> rfl

theorem warmth_restoration_flags (hive : ℝ × ℝ) (dt : ℝ) (s : VanguardState) :
    (apply_warmth_restoration hive dt s).flags = s.flags := rfl

theorem health_regeneration_flags (dt : ℝ) (s : VanguardState) :
    (apply_health_regeneration dt s).flags = s.flags := rfl

theorem stress_dynamics_flags (dt : ℝ) (s : VanguardState) :
    (apply_stress_dynamics dt s).flags = s.flags := rfl

theorem state_flags_flags_dead {foods : List (ℝ × ℝ)} {hive : ℝ × ℝ} {s : VanguardState}
    (h : s.flags &&& FLAG_DEAD = FLAG_DEAD) :
    (update_state_flags foods hive s).flags &&& FLAG_DEAD = FLAG_DEAD := by
  simp only [update_state_flags]
  split_ifs
  all_goals first
    | exact mask_keeps_dead h
    | exact or_keeps_dead _ (mask_keeps_dead h)
    | exact or_keeps_dead _ (or_keeps_dead _ (mask_keeps_dead h))

theorem cohesion_illusion_flags (dens : ℝ) (s : VanguardState) :
    (update_cohesion_illusion dens s).flags = s.flags := rfl

/-! ## C2 - the dead flag is monotonic -/

/-- C2: every operation of the tick that rewrites the STATE_FLAGS column
(`apply_energy_decay`, `apply_health_decay`, `update_state_flags`) only ORs
flag bits in or masks with `FLAG_DEAD ||| FLAG_FORESHADOW_DEATH`, so once
`FLAG_DEAD` is set for an agent it survives every subsequent tick of the
Vanguard biology pass (the Legion pass never writes the flag column at
all). -/
theorem dead_flag_monotone (dt : ℝ) (foods : List (ℝ × ℝ)) (hive : ℝ × ℝ)
    (dens : ℝ) (s : VanguardState) (h : s.flags &&& FLAG_DEAD = FLAG_DEAD) :
    (vanguardBiology dt foods hive dens s).flags &&& FLAG_DEAD = FLAG_DEAD := by
  simp only [vanguardBiology]
  rw [cohesion_illusion_flags]
  apply state_flags_flags_dead
  rw [stress_dynamics_flags, health_regeneration_flags, warmth_restoration_flags,
    food_restoration_flags]
  exact health_decay_flags_dead (energy_decay_flags_dead h)

/-- Witness for C2 at a concrete dead agent. -/
noncomputable def deadAgent : VanguardState :=
  { posX := 100, posY := 100, velX := 0, velY := 0, health := 0, stress := 0,
    regenMod := 1.1, stressRes := 0.9, targetX := 0, targetY := 0, lodLevel := 0,
    lodTimer := 0, energy := 0.5, temp := 0.8, flags := 8, age := 0, cohesion := 0.5,
    trailPhase := 0, regenRate := 0.001, deathThreshold := 0.1 }

theorem dead_flag_monotone_witness :
    (vanguardBiology (1 / 30) [] (500, 500) 0 deadAgent).flags &&& FLAG_DEAD = FLAG_DEAD :=
  dead_flag_monotone (1 / 30) [] (500, 500) 0 deadAgent (by rfl)

/-! ## C8 - exact energy decay for an isolated agent -/

theorem health_decay_energy (dt : ℝ) (s : VanguardState) :
    (apply_health_decay dt s).energy = s.energy := rfl

theorem health_decay_pos (dt : ℝ) (s : VanguardState) :
    (apply_health_decay dt s).posX = s.posX ∧ (apply_health_decay dt s).posY = s.posY :=
  ⟨rfl, rfl⟩

theorem energy_decay_pos (dt : ℝ) (s : VanguardState) :
    (apply_energy_decay dt s).posX = s.posX ∧ (apply_energy_decay dt s).posY = s.posY :=
  ⟨rfl, rfl⟩

theorem warmth_restoration_energy (hive : ℝ × ℝ) (dt : ℝ) (s : VanguardState) :
    (apply_warmth_restoration hive dt s).energy = s.energy := rfl

theorem health_regeneration_energy (dt : ℝ) (s : VanguardState) :
    (apply_health_regeneration dt s).energy = s.energy := rfl

theorem stress_dynamics_energy (dt : ℝ) (s : VanguardState) :
    (apply_stress_dynamics dt s).energy = s.energy := rfl

theorem state_flags_energy (foods : List (ℝ × ℝ)) (hive : ℝ × ℝ) (s : VanguardState) :
    (update_state_flags foods hive s).energy = s.energy := rfl

theorem cohesion_illusion_energy (dens : ℝ) (s : VanguardState) :
    (update_cohesion_illusion dens s).energy = s.energy := rfl

/-- C8: a stationary agent with no food source within 30px loses exactly
`ENERGY_DECAY_RATE` energy over one biology update with `dt = 1`, provided
the decremented energy stays inside the clip range `[0, 1]` (the hive /
warmth state is irrelevant: no other sub-step of the biology pass writes
the energy column). -/
theorem energy_decreases_exactly (foods : List (ℝ × ℝ)) (hive : ℝ × ℝ) (dens : ℝ)
    (s : VanguardState)
    (hfar : ∀ f ∈ foods, ¬ distSq (s.posX, s.posY) f < 30 ^ 2)
    (h0 : ENERGY_DECAY_RATE ≤ s.energy) (h1 : s.energy ≤ 1) :
    (vanguardBiology 1 foods hive dens s).energy = s.energy - ENERGY_DECAY_RATE := by
  have hrate : (0:ℝ) ≤ ENERGY_DECAY_RATE := by norm_num [ENERGY_DECAY_RATE]
  have hE1 : (apply_energy_decay 1 s).energy = s.energy - ENERGY_DECAY_RATE := by
    show clip01 (s.energy - ENERGY_DECAY_RATE * 1) = _
    rw [mul_one]
    exact clip01_of_mem (by linarith) (by linarith)
  simp only [vanguardBiology]
  rw [cohesion_illusion_energy, state_flags_energy, stress_dynamics_energy,
    health_regeneration_energy, warmth_restoration_energy]
  set s2 := apply_health_decay 1 (apply_energy_decay 1 s) with hs2
  have hs2e : s2.energy = s.energy - ENERGY_DECAY_RATE := by
    rw [hs2, health_decay_energy, hE1]
  have hs2x : s2.posX = s.posX := rfl
  have hs2y : s2.posY = s.posY := rfl
  by_cases hfoods : foods = []
  · rw [hfoods]
    simp only [apply_food_restoration, if_pos rfl]
    exact hs2e
  · simp only [apply_food_restoration, if_neg hfoods]
    have hnear : ¬ ∃ f ∈ foods, distSq (s2.posX, s2.posY) f < 30 ^ 2 := by
      rintro ⟨f, hf, hd⟩
      rw [hs2x, hs2y] at hd
      exact hfar f hf hd
    rw [if_neg hnear, hs2e]
    exact clip01_of_mem (by linarith) (by linarith)

/-- A concrete isolated agent for the C8 witness: stationary at the origin,
full energy, the single food source 600px away, the hive 500px away. -/
noncomputable def isolatedAgent : VanguardState :=
  { posX := 0, posY := 0, velX := 0, velY := 0, health := 1, stress := 0,
    regenMod := 1.1, stressRes := 0.9, targetX := 0, targetY := 0, lodLevel := 0,
    lodTimer := 0, energy := 1, temp := 1, flags := 33, age := 0, cohesion := 0.5,
    trailPhase := 0, regenRate := 0.001, deathThreshold := 0.1 }

theorem energy_decreases_exactly_witness :
    (vanguardBiology 1 [(600, 600)] (500, 500) 0 isolatedAgent).energy
      = isolatedAgent.energy - ENERGY_DECAY_RATE := by
  apply energy_decreases_exactly
  · intro f hf
    simp only [List.mem_singleton] at hf
    subst hf
    show ¬ distSq (isolatedAgent.posX, isolatedAgent.posY) (600, 600) < 30 ^ 2
    norm_num [distSq, isolatedAgent]
  · norm_num [isolatedAgent, ENERGY_DECAY_RATE]
  · norm_num [isolatedAgent]

/-! ## C1 - scalar ranges after one tick -/

theorem health_decay_temp (dt : ℝ) (s : VanguardState) :
    (apply_health_decay dt s).temp = s.temp := rfl

theorem energy_decay_temp (dt : ℝ) (s : VanguardState) :
    (apply_energy_decay dt s).temp = s.temp := rfl

theorem food_restoration_temp (foods : List (ℝ × ℝ)) (dt : ℝ) (s : VanguardState) :
    (apply_food_restoration foods dt s).temp = s.temp := by
  simp only [apply_food_restoration]
  split_ifs <;> rfl

theorem health_regeneration_temp (dt : ℝ) (s : VanguardState) :
    (apply_health_regeneration dt s).temp = s.temp := rfl

theorem stress_dynamics_temp (dt : ℝ) (s : VanguardState) :
    (apply_stress_dynamics dt s).temp = s.temp := rfl

theorem state_flags_temp (foods : List (ℝ × ℝ)) (hive : ℝ × ℝ) (s : VanguardState) :
    (update_state_flags foods hive s).temp = s.temp := rfl

theorem cohesion_illusion_temp (dens : ℝ) (s : VanguardState) :
    (update_cohesion_illusion dens s).temp = s.temp := rfl

theorem state_flags_stress (foods : List (ℝ × ℝ)) (hive : ℝ × ℝ) (s : VanguardState) :
    (update_state_flags foods hive s).stress = s.stress := rfl

theorem cohesion_illusion_stress (dens : ℝ) (s : VanguardState) :
    (update_cohesion_illusion dens s).stress = s.stress := rfl

theorem state_flags_health (foods : List (ℝ × ℝ)) (hive : ℝ × ℝ) (s : VanguardState) :
    (update_state_flags foods hive s).health = s.health := rfl

theorem cohesion_illusion_health (dens : ℝ) (s : VanguardState) :
    (update_cohesion_illusion dens s).health = s.health := rfl

theorem food_restoration_energy_bounds (foods : List (ℝ × ℝ)) (dt : ℝ)
    (s : VanguardState) (h0 : 0 ≤ s.energy) (h1 : s.energy ≤ 1) :
    0 ≤ (apply_food_restoration foods dt s).energy
      ∧ (apply_food_restoration foods dt s).energy ≤ 1 := by
  by_cases hf : foods = []
  · simp only [apply_food_restoration, if_pos hf]
    exact ⟨h0, h1⟩
  · simp only [apply_food_restoration, if_neg hf]
    exact ⟨clip01_nonneg _, clip01_le_one _⟩

theorem stress_dynamics_health_bounds (dt : ℝ) (s : VanguardState) (hdt : 0 ≤ dt)
    (h0 : 0 ≤ s.health) (h1 : s.health ≤ 1) :
    -(0.002 * dt) ≤ (apply_stress_dynamics dt s).health
      ∧ (apply_stress_dynamics dt s).health ≤ 1 := by
  have hp : (0:ℝ) ≤ 0.002 * dt := by
    have : (0:ℝ) ≤ 0.002 := by norm_num
    exact mul_nonneg this hdt
  simp only [apply_stress_dynamics]
  split_ifs <;> constructor <;> linarith

theorem stress_dynamics_legion_health_bounds (dt : ℝ) (s : LegionState) (hdt : 0 ≤ dt)
    (h0 : 0 ≤ s.health) (h1 : s.health ≤ 1) :
    -(0.002 * dt) ≤ (apply_stress_dynamics_legion dt s).health
      ∧ (apply_stress_dynamics_legion dt s).health ≤ 1 := by
  have hp : (0:ℝ) ≤ 0.002 * dt := by
    have : (0:ℝ) ≤ 0.002 := by norm_num
    exact mul_nonneg this hdt
  simp only [apply_stress_dynamics_legion]
  split_ifs <;> constructor <;> linarith

/-- C1 amended: after one tick of either tier's update, energy, temperature
and stress do lie in `[0,1]` (each is rewritten through a final
`np.clip`), but health does not: `apply_stress_dynamics` subtracts its
high-stress penalty `0.002*dt` AFTER the health clip, so the tick can leave
health as low as `-0.002*dt` (the counterexample theorem exhibits a
concrete violating run); health is only guaranteed to lie in
`[-0.002*dt, 1]`. -/
theorem tick_scalar_ranges (dt : ℝ) (hdt : 0 ≤ dt) :
    (∀ (foods : List (ℝ × ℝ)) (hive : ℝ × ℝ) (dens : ℝ) (s : VanguardState),
      (0 ≤ (vanguardBiology dt foods hive dens s).energy
        ∧ (vanguardBiology dt foods hive dens s).energy ≤ 1)
      ∧ (0 ≤ (vanguardBiology dt foods hive dens s).temp
        ∧ (vanguardBiology dt foods hive dens s).temp ≤ 1)
      ∧ (0 ≤ (vanguardBiology dt foods hive dens s).stress
        ∧ (vanguardBiology dt foods hive dens s).stress ≤ 1)
      ∧ (-(0.002 * dt) ≤ (vanguardBiology dt foods hive dens s).health
        ∧ (vanguardBiology dt foods hive dens s).health ≤ 1))
    ∧ (∀ (inp : LegionTickInput) (s : LegionState),
      (0 ≤ (updateLegion dt inp s).stress ∧ (updateLegion dt inp s).stress ≤ 1)
      ∧ (-(0.002 * dt) ≤ (updateLegion dt inp s).health
        ∧ (updateLegion dt inp s).health ≤ 1)) := by
  constructor
  · intro foods hive dens s
    simp only [vanguardBiology]
    set s1 := apply_energy_decay dt s with hs1
    set s2 := apply_health_decay dt s1 with hs2
    set s3 := apply_food_restoration foods dt s2 with hs3
    set s4 := apply_warmth_restoration hive dt s3 with hs4
    set s5 := apply_health_regeneration dt s4 with hs5
    set s6 := apply_stress_dynamics dt s5 with hs6
    have hE1 : 0 ≤ s1.energy ∧ s1.energy ≤ 1 := ⟨clip01_nonneg _, clip01_le_one _⟩
    have hE2 : s2.energy = s1.energy := health_decay_energy dt s1
    have hE3 : 0 ≤ s3.energy ∧ s3.energy ≤ 1 := by
      rw [hs3]
      exact food_restoration_energy_bounds foods dt s2 (hE2 ▸ hE1.1) (hE2 ▸ hE1.2)
    have hT4 : 0 ≤ s4.temp ∧ s4.temp ≤ 1 := ⟨clip01_nonneg _, clip01_le_one _⟩
    have hH5 : 0 ≤ s5.health ∧ s5.health ≤ 1 := ⟨clip01_nonneg _, clip01_le_one _⟩
    have hS6 : 0 ≤ s6.stress ∧ s6.stress ≤ 1 := ⟨clip01_nonneg _, clip01_le_one _⟩
    have hH6 : -(0.002 * dt) ≤ s6.health ∧ s6.health ≤ 1 := by
      rw [hs6]
      exact stress_dynamics_health_bounds dt s5 hdt hH5.1 hH5.2
    refine ⟨?_, ?_, ?_, ?_⟩
    · rw [cohesion_illusion_energy, state_flags_energy, stress_dynamics_energy,
        health_regeneration_energy, warmth_restoration_energy]
      exact hE3
    · rw [cohesion_illusion_temp, state_flags_temp, stress_dynamics_temp,
        health_regeneration_temp]
      exact hT4
    · rw [cohesion_illusion_stress, state_flags_stress]
      exact hS6
    · rw [cohesion_illusion_health, state_flags_health]
      exact hH6
  · intro inp s
    simp only [updateLegion]
    set s3 := apply_health_regeneration_legion dt
      { legionMove dt inp s with
        health := (legionMove dt inp s).health - HEALTH_DECAY_RATE * dt * 0.5 } with hs3
    have hH3 : 0 ≤ s3.health ∧ s3.health ≤ 1 := ⟨clip01_nonneg _, clip01_le_one _⟩
    refine ⟨⟨clip01_nonneg _, clip01_le_one _⟩, ?_⟩
    exact stress_dynamics_legion_health_bounds dt s3 hdt hH3.1 hH3.2

/-- Witness for the amended C1 at the fixed simulation tick `dt = 1/30`. -/
theorem tick_scalar_ranges_witness :
    (∀ (foods : List (ℝ × ℝ)) (hive : ℝ × ℝ) (dens : ℝ) (s : VanguardState),
      (0 ≤ (vanguardBiology (1 / 30) foods hive dens s).energy
        ∧ (vanguardBiology (1 / 30) foods hive dens s).energy ≤ 1)
      ∧ (0 ≤ (vanguardBiology (1 / 30) foods hive dens s).temp
        ∧ (vanguardBiology (1 / 30) foods hive dens s).temp ≤ 1)
      ∧ (0 ≤ (vanguardBiology (1 / 30) foods hive dens s).stress
        ∧ (vanguardBiology (1 / 30) foods hive dens s).stress ≤ 1)
      ∧ (-(0.002 * (1 / 30)) ≤ (vanguardBiology (1 / 30) foods hive dens s).health
        ∧ (vanguardBiology (1 / 30) foods hive dens s).health ≤ 1))
    ∧ (∀ (inp : LegionTickInput) (s : LegionState),
      (0 ≤ (updateLegion (1 / 30) inp s).stress ∧ (updateLegion (1 / 30) inp s).stress ≤ 1)
      ∧ (-(0.002 * (1 / 30)) ≤ (updateLegion (1 / 30) inp s).health
        ∧ (updateLegion (1 / 30) inp s).health ≤ 1)) :=
  tick_scalar_ranges (1 / 30) (by norm_num)

theorem npPow15_sq {a : ℝ} (ha : 0 ≤ a) : npPow15 (a ^ 2) = a ^ 3 := by
  unfold npPow15
  rw [← Real.rpow_natCast a 2, ← Real.rpow_mul ha]
  rw [show ((2:ℕ):ℝ) * 1.5 = ((3:ℕ):ℝ) by norm_num, Real.rpow_natCast]

/-- The C1 counterexample agent: alive (flags = FLAG_SEEKING_FOOD with the
Forager caste bits), warm and fed, with every bounded scalar inside
`[0,1]`, but health barely positive and stress high. -/
noncomputable def cexAgent : VanguardState :=
  { posX := 0, posY := 0, velX := 0, velY := 0, health := 1 / 250000,
    stress := 9727 / 10800, regenMod := 11 / 10, stressRes := 9 / 10,
    targetX := 0, targetY := 0, lodLevel := 0, lodTimer := 0, energy := 1,
    temp := 1, flags := 33, age := 0, cohesion := 1 / 2, trailPhase := 0,
    regenRate := 1 / 1000, deathThreshold := 1 / 10 }

/-- C1 counterexample: one `_update_vanguard` biology pass at the fixed
tick `dt = 1/30` drives this agent's health strictly below 0 - the
high-stress penalty of `apply_stress_dynamics` is applied after the final
health clip - even though all four scalars start inside `[0,1]`, so the
claimed invariant fails for health. -/
theorem stress_penalty_breaks_health_range :
    (0 ≤ cexAgent.health ∧ cexAgent.health ≤ 1)
    ∧ (0 ≤ cexAgent.energy ∧ cexAgent.energy ≤ 1)
    ∧ (0 ≤ cexAgent.temp ∧ cexAgent.temp ≤ 1)
    ∧ (0 ≤ cexAgent.stress ∧ cexAgent.stress ≤ 1)
    ∧ (vanguardBiology (1 / 30) [] (500, 500) 0 cexAgent).health < 0 := by
  refine ⟨⟨by norm_num [cexAgent], by norm_num [cexAgent]⟩,
    ⟨by norm_num [cexAgent], by norm_num [cexAgent]⟩,
    ⟨by norm_num [cexAgent], by norm_num [cexAgent]⟩,
    ⟨by norm_num [cexAgent], by norm_num [cexAgent]⟩, ?_⟩
  have e1 : apply_energy_decay (1 / 30) cexAgent
      = { cexAgent with energy := 1499 / 1500 } := by
    have hc : clip01 (cexAgent.energy - ENERGY_DECAY_RATE * (1 / 30))
        = 1499 / 1500 := by
      rw [show cexAgent.energy - ENERGY_DECAY_RATE * (1 / 30) = (1499 / 1500 : ℝ) by
        norm_num [cexAgent, ENERGY_DECAY_RATE]]
      exact clip01_of_mem (by norm_num) (by norm_num)
    simp only [apply_energy_decay, hc]
    norm_num
  have e2 : apply_health_decay (1 / 30) { cexAgent with energy := 1499 / 1500 }
      = { cexAgent with energy := 1499 / 1500, flags := 49 } := by
    have hcond : ¬ (({ cexAgent with energy := (1499:ℝ) / 1500 } : VanguardState).temp
          < WARMTH_THRESHOLD
        ∨ ({ cexAgent with energy := (1499:ℝ) / 1500 } : VanguardState).energy
          < HUNGER_THRESHOLD) := by
      push_neg
      constructor <;> norm_num [cexAgent, WARMTH_THRESHOLD, HUNGER_THRESHOLD]
    have hc : clip01 (({ cexAgent with energy := (1499:ℝ)/1500 } : VanguardState).health)
        = 1 / 250000 := by
      rw [show ({ cexAgent with energy := (1499:ℝ)/1500 } : VanguardState).health
        = (1 / 250000 : ℝ) by norm_num [cexAgent]]
      exact clip01_of_mem (by norm_num) (by norm_num)
    simp only [apply_health_decay, if_neg hcond, hc]
    norm_num [cexAgent, FLAG_FORESHADOW_DEATH]
    decide
  have e3 : apply_food_restoration [] (1 / 30)
      ({ cexAgent with energy := 1499 / 1500, flags := 49 } : VanguardState)
      = { cexAgent with energy := 1499 / 1500, flags := 49 } := by
    simp [apply_food_restoration]
  have e4 : apply_warmth_restoration (500, 500) (1 / 30)
      ({ cexAgent with energy := 1499 / 1500, flags := 49 } : VanguardState)
      = { cexAgent with energy := 1499 / 1500, flags := 49 } := by
    have hcond : ¬ distSq
        (({ cexAgent with energy := (1499:ℝ)/1500, flags := 49 } : VanguardState).posX,
         ({ cexAgent with energy := (1499:ℝ)/1500, flags := 49 } : VanguardState).posY)
        (500, 500) < (HIVE_ENTRANCE_RADIUS * 2) ^ 2 := by
      norm_num [cexAgent, distSq, HIVE_ENTRANCE_RADIUS]
    have hc : clip01 (({ cexAgent with energy := (1499:ℝ)/1500, flags := 49 }
        : VanguardState).temp) = 1 := by
      rw [show ({ cexAgent with energy := (1499:ℝ)/1500, flags := 49 }
        : VanguardState).temp = (1:ℝ) by norm_num [cexAgent]]
      exact clip01_of_mem (by norm_num) (by norm_num)
    simp only [apply_warmth_restoration, if_neg hcond, hc]
    norm_num [cexAgent]
  have e5 : apply_health_regeneration (1 / 30)
      ({ cexAgent with energy := 1499 / 1500, flags := 49 } : VanguardState)
      = { cexAgent with energy := 1499 / 1500, flags := 49, health := 3 / 62500 } := by
    have halive : ((49:ℕ) &&& FLAG_DEAD = 0) := by decide
    have hval : ({ cexAgent with energy := (1499:ℝ)/1500, flags := 49 }
          : VanguardState).health
        + REGEN_RATE_MAX * ({ cexAgent with energy := (1499:ℝ)/1500, flags := 49 }
          : VanguardState).regenMod * (1 / 30) = 3 / 62500 := by
      norm_num [cexAgent, REGEN_RATE_MAX]
    simp only [apply_health_regeneration, if_pos halive, hval]
    rw [clip01_of_mem (by norm_num) (by norm_num)]
  have hpow : npPow15 ((361:ℝ) / 400) = 6859 / 8000 := by
    rw [show (361 / 400 : ℝ) = (19 / 20) ^ 2 by norm_num, npPow15_sq (by norm_num)]
    norm_num
  have e6h : (apply_stress_dynamics (1 / 30)
      ({ cexAgent with energy := 1499 / 1500, flags := 49, health := 3 / 62500 }
        : VanguardState)).health = -(7 / 375000) := by
    set t : VanguardState :=
      { cexAgent with energy := 1499 / 1500, flags := 49, health := 3 / 62500 } with ht
    have halive : t.flags &&& FLAG_DEAD = 0 := by rw [ht]; decide
    have hx0 : t.stress + STRESS_ACCUMULATION_RATE * (1 / 30) / t.stressRes
        = (361 : ℝ) / 400 := by
      rw [ht]
      norm_num [cexAgent, STRESS_ACCUMULATION_RATE]
    have hx1 : (361 : ℝ) / 400 - (0.1 * ((361:ℝ) / 400)
        + 0.9 * npPow15 ((361:ℝ) / 400)) * (1 / 30) = 2097049 / 2400000 := by
      rw [hpow]
      norm_num
    simp only [apply_stress_dynamics, if_pos halive, hx0, hx1]
    rw [clip01_of_mem (by norm_num) (by norm_num)]
    rw [if_pos (And.intro (by norm_num) halive)]
    norm_num
  simp only [vanguardBiology]
  rw [cohesion_illusion_health, state_flags_health]
  rw [e1, e2, e3, e4, e5, e6h]
  norm_num

/-! ## C4 - flower harvest -/

theorem foldl_pick_mem (b : ℚ × ℚ) :
    ∀ (l : List (ℕ × Flower)) (acc : Option (ℕ × Flower)) (p : ℕ × Flower),
      l.foldl (fun best q => match best with
        | none => some q
        | some r => if distSqQ b q.2.pos < distSqQ b r.2.pos then some q else some r)
        acc = some p →
      p ∈ l ∨ acc = some p := by
  intro l
  induction l with
  | nil => intro acc p h; exact Or.inr h
  | cons x xs ih =>
    intro acc p h
    rw [List.foldl_cons] at h
    rcases ih _ p h with hmem | hacc
    · exact Or.inl (List.mem_cons_of_mem x hmem)
    · match acc, hacc with
      | none, hacc =>
        simp only [Option.some.injEq] at hacc
        exact Or.inl (hacc ▸ List.mem_cons_self x xs)
      | some r, hacc =>
        dsimp only at hacc
        split at hacc
        · simp only [Option.some.injEq] at hacc
          exact Or.inl (hacc ▸ List.mem_cons_self x xs)
        · exact Or.inr hacc

theorem closestFlower_valid {fls : List Flower} {b : ℚ × ℚ} {j : ℕ}
    (h : closestFlower fls b = some j) :
    ∃ fl, fls[j]? = some fl ∧ validContact b fl = true := by
  unfold closestFlower at h
  rw [Option.map_eq_some'] at h
  obtain ⟨p, hfold, hp1⟩ := h
  rcases foldl_pick_mem b _ none p hfold with hmem | hacc
  · rw [List.mem_filter] at hmem
    refine ⟨p.2, ?_, hmem.2⟩
    rw [← hp1]
    exact List.mem_enum_iff_getElem?.mp hmem.1
  · exact absurd hacc (by simp)

theorem countP_enumFrom (p : (ℚ × ℚ) → Bool) (bees : List (ℚ × ℚ)) :
    ∀ n, ((List.enumFrom n bees).filter fun q => p q.2).length = bees.countP p := by
  induction bees with
  | nil => intro n; rfl
  | cons x xs ih =>
    intro n
    rw [List.enumFrom, List.countP_cons]
    by_cases hx : p x = true
    · simp [List.filter_cons, hx, ih (n + 1)]
    · simp [List.filter_cons, hx, ih (n + 1)]

/-- C4 amended: within one `ResourceManager.harvest` call, every bee's
credited harvest is clamped to its contacted flower's start-of-call nectar
(and is nonnegative), and a flower harvested by at most one bee cannot be
driven below 0; but the per-bee clamps are all taken against the same
start-of-call nectar while `np.add.at` subtracts their sum, so two or more
bees contacting the same flower can drive its nectar negative (the
counterexample theorem exhibits such a call). -/
theorem harvest_clamped_per_bee :
    (∀ (fls : List Flower) (noise : ℚ) (b : ℚ × ℚ) (j : ℕ) (fl : Flower),
        closestFlower fls b = some j → fls[j]? = some fl →
          harvestAmount fls noise b ≤ fl.nectar ∧ 0 ≤ harvestAmount fls noise b)
    ∧ (∀ (fls : List Flower) (bees : List (ℚ × ℚ)) (noise : ℕ → ℚ) (j : ℕ) (fl : Flower),
        fls[j]? = some fl → 0 ≤ fl.nectar →
        bees.countP (fun b => closestFlower fls b == some j) ≤ 1 →
          0 ≤ nectarAfterHarvest fls bees noise j) := by
  have hamount : ∀ (fls : List Flower) (noise : ℚ) (b : ℚ × ℚ) (j : ℕ) (fl : Flower),
      closestFlower fls b = some j → fls[j]? = some fl →
        harvestAmount fls noise b ≤ fl.nectar ∧ 0 ≤ harvestAmount fls noise b := by
    intro fls noise b j fl hc hj
    obtain ⟨fl', hj', hvalid⟩ := closestFlower_valid hc
    rw [hj] at hj'
    obtain rfl : fl = fl' := by injection hj'
    have hpos : 0 < fl.nectar := by
      unfold validContact at hvalid
      simp only [Bool.and_eq_true, decide_eq_true_eq] at hvalid
      exact hvalid.1.2
    simp only [harvestAmount, hc, hj]
    constructor
    · exact min_le_right _ _
    · exact le_min (le_max_right _ _) (le_of_lt hpos)
  refine ⟨hamount, fun fls bees noise j fl hj hfl hcount => ?_⟩
  have hlen : ((bees.enum.filter fun q => closestFlower fls q.2 == some j).length ≤ 1) := by
    rw [List.enum, countP_enumFrom (fun b => closestFlower fls b == some j) bees 0]
    exact hcount
  unfold nectarAfterHarvest flowerDeductions
  rw [hj]
  rcases hfi : bees.enum.filter fun q => closestFlower fls q.2 == some j with _ | ⟨p, tl⟩
  · rw [hfi]
    simpa using hfl
  · rcases tl with _ | ⟨q, tl'⟩
    · have hpmem : p ∈ bees.enum.filter fun q => closestFlower fls q.2 == some j := by
        rw [hfi]; exact List.mem_cons_self p []
      have hpred : closestFlower fls p.2 = some j := by
        have := (List.mem_filter.mp hpmem).2
        simpa using this
      rw [hfi]
      simp only [List.map_cons, List.map_nil, List.sum_cons, List.sum_nil, add_zero]
      have := (hamount fls (noise p.1) p.2 j fl hpred hj).1
      linarith
    · rw [hfi] at hlen
      simp at hlen

/-- C4 counterexample: a single flower with nectar 0.05 and two bees both
in contact; with zero noise each bee's harvest clamps to the full 0.05
(both clamps read the start-of-call nectar), the accumulated deduction is
0.10, and the flower's nectar ends at -0.05 < 0. -/
theorem harvest_drives_nectar_negative :
    (0:ℚ) ≤ (1 / 20 : ℚ)
    ∧ harvestedVector [⟨(0, 0), 1 / 20, true⟩] [(0, 0), (0, 0)] (fun _ => 0)
        = [1 / 20, 1 / 20]
    ∧ nectarAfterHarvest [⟨(0, 0), 1 / 20, true⟩] [(0, 0), (0, 0)] (fun _ => 0) 0
        = -(1 / 20) := by
  refine ⟨by norm_num, ?_, ?_⟩
  · norm_num [harvestedVector, harvestAmount, closestFlower, validContact, distSqQ,
      FLOWER_CONTACT_RADIUS, FLOWER_HARVEST_BASE, List.enum, List.enumFrom]
  · norm_num [nectarAfterHarvest, flowerDeductions, harvestAmount, closestFlower,
      validContact, distSqQ, FLOWER_CONTACT_RADIUS, FLOWER_HARVEST_BASE,
      List.enum, List.enumFrom]

/-! ## C7 - pheromone pulse decay -/

theorem reflectIdx_interior {z : ℤ} (h0 : 0 ≤ z) (h1 : z ≤ 127) : reflectIdx z = z := by
  simp only [reflectIdx, PHEROMONE_GRID_SIZE]
  rw [if_neg (by omega), if_neg (by omega)]
  omega

/-- Locality of the blurred pulse: for the first five updates the support
of the pulse stays at Chebyshev distance `≤ 5` from cell (10,10), far from
every reflecting boundary, so the grid value is the decayed outer product
of the 1D kernel weights. -/
theorem pulseRun_eq (d A : ℚ) :
    ∀ (n : ℕ) (y x : ℤ), (n : ℤ) ≤ 5 →
      5 + (n : ℤ) ≤ y → y ≤ 15 - (n : ℤ) →
      5 + (n : ℤ) ≤ x → x ≤ 15 - (n : ℤ) →
      pulseRun d A n y x = d ^ n * A * (w1d n (y - 10) * w1d n (x - 10)) := by
  intro n
  induction n with
  | zero =>
    intro y x _ _ _ _ _
    simp only [pulseRun, Function.iterate_zero, id_eq, depositAt, zeroGrid, w1d,
      pow_zero, one_mul, zero_add]
    by_cases hy : y = 10 <;> by_cases hx : x = 10
    · rw [if_pos ⟨hy, hx⟩, if_pos (show y - 10 = 0 by omega),
        if_pos (show x - 10 = 0 by omega)]
      ring
    · rw [if_neg (fun h => hx h.2), if_neg (show ¬ x - 10 = 0 by omega)]
      ring
    · rw [if_neg (fun h => hy h.1), if_neg (show ¬ y - 10 = 0 by omega)]
      ring
    · rw [if_neg (fun h => hy h.1), if_neg (show ¬ y - 10 = 0 by omega)]
      ring
  | succ n ih =>
    intro y x hn hy1 hy2 hx1 hx2
    have hcast : (n : ℤ) + 1 = ((n + 1 : ℕ) : ℤ) := by push_cast; ring
    show ((resourceUpdate d)^[n + 1] (depositAt 10 10 A zeroGrid)) y x = _
    rw [Function.iterate_succ_apply']
    simp only [resourceUpdate, gaussian_blur_3x3]
    have rym : reflectIdx (y - 1) = y - 1 := reflectIdx_interior (by omega) (by omega)
    have ry : reflectIdx y = y := reflectIdx_interior (by omega) (by omega)
    have ryp : reflectIdx (y + 1) = y + 1 := reflectIdx_interior (by omega) (by omega)
    have rxm : reflectIdx (x - 1) = x - 1 := reflectIdx_interior (by omega) (by omega)
    have rx : reflectIdx x = x := reflectIdx_interior (by omega) (by omega)
    have rxp : reflectIdx (x + 1) = x + 1 := reflectIdx_interior (by omega) (by omega)
    rw [rym, ry, ryp, rxm, rx, rxp]
    have hn' : (n : ℤ) ≤ 5 := by omega
    have i11 := ih (y - 1) (x - 1) hn' (by omega) (by omega) (by omega) (by omega)
    have i12 := ih (y - 1) x hn' (by omega) (by omega) (by omega) (by omega)
    have i13 := ih (y - 1) (x + 1) hn' (by omega) (by omega) (by omega) (by omega)
    have i21 := ih y (x - 1) hn' (by omega) (by omega) (by omega) (by omega)
    have i22 := ih y x hn' (by omega) (by omega) (by omega) (by omega)
    have i23 := ih y (x + 1) hn' (by omega) (by omega) (by omega) (by omega)
    have i31 := ih (y + 1) (x - 1) hn' (by omega) (by omega) (by omega) (by omega)
    have i32 := ih (y + 1) x hn' (by omega) (by omega) (by omega) (by omega)
    have i33 := ih (y + 1) (x + 1) hn' (by omega) (by omega) (by omega) (by omega)
    rw [show (pulseRun d A n = (resourceUpdate d)^[n] (depositAt 10 10 A zeroGrid))
      from rfl] at i11 i12 i13 i21 i22 i23 i31 i32 i33
    rw [i11, i12, i13, i21, i22, i23, i31, i32, i33]
    have e1 : y - 1 - 10 = y - 10 - 1 := by ring
    have e2 : y + 1 - 10 = y - 10 + 1 := by ring
    have e3 : x - 1 - 10 = x - 10 - 1 := by ring
    have e4 : x + 1 - 10 = x - 10 + 1 := by ring
    rw [e1, e2, e3, e4, w1d, w1d]
    ring

/-- C7: after a single pulse of amplitude `A > 0` at cell (10,10), five
resource-channel updates with no further deposits leave the concentration
at (10,10) strictly decreasing at every update and bounded by
`A * decay^5`, for every decay factor in `(0,1]` (the concrete
`RESOURCE_DECAY_FACTOR` is not present in config.py). -/
theorem pheromone_pulse_decay (d A : ℚ) (hd0 : 0 < d) (hd1 : d ≤ 1) (hA : 0 < A) :
    (∀ n < 5, pulseRun d A (n + 1) 10 10 < pulseRun d A n 10 10)
    ∧ pulseRun d A 5 10 10 ≤ A * d ^ 5 := by
  have hc : ∀ n : ℕ, (n : ℤ) ≤ 5 →
      pulseRun d A n 10 10 = d ^ n * A * (w1d n 0 * w1d n 0) := by
    intro n hn
    have := pulseRun_eq d A n 10 10 hn (by omega) (by omega) (by omega) (by omega)
    simpa using this
  have w0 : w1d 0 0 = 1 := by norm_num [w1d]
  have w1 : w1d 1 0 = 1 / 2 := by norm_num [w1d]
  have w2 : w1d 2 0 = 3 / 8 := by norm_num [w1d]
  have w3 : w1d 3 0 = 5 / 16 := by norm_num [w1d]
  have w4 : w1d 4 0 = 35 / 128 := by norm_num [w1d]
  have w5 : w1d 5 0 = 63 / 256 := by norm_num [w1d]
  have hpow : ∀ k : ℕ, 0 < d ^ k * A := fun k => mul_pos (pow_pos hd0 k) hA
  have hstep : ∀ k : ℕ, d ^ (k + 1) * A ≤ d ^ k * A := by
    intro k
    have h1 : d ^ (k + 1) ≤ d ^ k := by
      calc d ^ (k + 1) = d ^ k * d := pow_succ d k
        _ ≤ d ^ k * 1 := mul_le_mul_of_nonneg_left hd1 (le_of_lt (pow_pos hd0 k))
        _ = d ^ k := mul_one _
    exact mul_le_mul_of_nonneg_right h1 (le_of_lt hA)
  constructor
  · intro n hn
    interval_cases n
    · rw [hc 0 (by omega), hc 1 (by omega), w0, w1]
      have := hstep 0
      have := hpow 0
      nlinarith
    · rw [hc 1 (by omega), hc 2 (by omega), w1, w2]
      have := hstep 1
      have := hpow 1
      nlinarith
    · rw [hc 2 (by omega), hc 3 (by omega), w2, w3]
      have := hstep 2
      have := hpow 2
      nlinarith
    · rw [hc 3 (by omega), hc 4 (by omega), w3, w4]
      have := hstep 3
      have := hpow 3
      nlinarith
    · rw [hc 4 (by omega), hc 5 (by omega), w4, w5]
      have := hstep 4
      have := hpow 4
      nlinarith
  · rw [hc 5 (by omega), w5]
    have := hpow 5
    nlinarith

/-- Witness for C7 at the legacy decay factor `PHEROMONE_DECAY_FACTOR
= 0.94` and unit amplitude. -/
theorem pheromone_pulse_decay_witness :
    (∀ n < 5, pulseRun (94 / 100) 1 (n + 1) 10 10 < pulseRun (94 / 100) 1 n 10 10)
    ∧ pulseRun (94 / 100) 1 5 10 10 ≤ 1 * (94 / 100) ^ 5 :=
  pheromone_pulse_decay (94 / 100) 1 (by norm_num) (by norm_num) (by norm_num)

end Apis
